import Mathlib

/-!
Verification of the draft/confirmation, routing and trigger core of the
poke-deploy-clean repository, as a shallow embedding in Lean.

Python dicts with optional keys are modelled as structures whose fields are
Option-valued; `dict.get(k, default)` becomes `field.getD default`.  The
SQLite table `pending_confirmations (user_id TEXT PRIMARY KEY, ...)` is
modelled as an association list of rows; `INSERT OR REPLACE` deletes the
conflicting row and appends the new one, exactly as SQLite executes it on a
primary-key conflict.  The external capability backends (Gmail send, Google
Calendar create, searches) are modelled at the interface boundary as an
oracle record `Backend`; every handler additionally returns the list of
backend calls it issued, which is the observable effect log.
-/

namespace Poke

/-- A staged side-effecting action, i.e. the `draft` / `confirmation_data`
dict built by the handlers in execution_agent.py.  All keys optional. -/
structure Draft where
  type : Option String := none
  «to» : Option String := none
  subject : Option String := none
  body : Option String := none
  title : Option String := none
  date : Option String := none
  time : Option String := none
  description : Option String := none
  user_id : Option String := none
deriving DecidableEq

/-- A search result item as returned by the mocked backends; `source` is the
tag written by `_handle_search_task`. -/
structure SearchItem where
  id : Option String := none
  sender : Option String := none
  subject : Option String := none
  snippet : Option String := none
  title : Option String := none
  summary : Option String := none
  date : Option String := none
  source : Option String := none
deriving DecidableEq

/-- Result dict of a backend `create` call (email_service.send_email,
calendar_service.create_event). -/
structure Receipt where
  success : Bool
  message_id : Option String := none
  event_id : Option String := none
  details : Option String := none
  error : Option String := none
deriving DecidableEq

/-- One backend invocation; the effect log of a handler is a list of these. -/
inductive BackendCall where
  | sendEmail («to» subject body user_id : String)
  | createEvent (title date time description user_id : String)
  | searchEmails (user_id query : String)
  | searchEvents (user_id query : String)
deriving DecidableEq

/-- The capability-backend oracle: outcomes of the external create calls and
results of the external searches, per §6 of the design. -/
structure Backend where
  send_email : String → String → String → String → Receipt
  create_event : String → String → String → String → String → Receipt
  search_emails : String → String → List SearchItem
  search_events : String → String → List SearchItem

/-- The `parameters` dict of a task analysis. -/
structure TaskParams where
  recipient : Option String := none
  subject : Option String := none
  body : Option String := none
  date : Option String := none
  time : Option String := none
  query : Option String := none
  service : Option String := none
  title : Option String := none
  description : Option String := none
deriving DecidableEq

/-- The classifier output dict consumed by the handlers. -/
structure TaskAnalysis where
  task_type : Option String := none
  action : Option String := none
  parameters : Option TaskParams := none
deriving DecidableEq

/-- The result dict returned by handlers, execute_confirmed_action,
trigger operations and create_recurring_event; one record type for the
string-keyed result dicts, all keys optional. -/
structure ExecOut where
  success : Option Bool := none
  task_type : Option String := none
  error : Option String := none
  details : Option String := none
  draft : Option Draft := none
  needs_confirmation : Option Bool := none
  task_completed : Option Bool := none
  results : Option (List SearchItem) := none
  message_id : Option String := none
  event_id : Option String := none
  service : Option String := none
  auth_url : Option String := none
  message : Option String := none
  needs_user_action : Option Bool := none
  events_created : Option Nat := none
deriving DecidableEq

/-- A registered automation (trigger_manager.Trigger dataclass);
`created_at` modelled as an abstract timestamp. -/
structure Trigger where
  id : String
  user_id : String
  trigger_type : String
  condition : String
  action : String
  active : Bool := true
  created_at : Nat := 0
deriving DecidableEq

/-! ### Pending-confirmation store (memory_manager.py)

The table rows, in insertion order; each row is (user_id, confirmation_data).
The unused created_at column is omitted. -/

/-- Rows of the pending_confirmations table. -/
abbrev PendingRows : Type := List (String × Draft)

/-- memory_manager.get_pending_confirmation: SELECT confirmation_data WHERE
user_id = ? then fetchone, i.e. the first matching row. -/
def get_pending_confirmation (rows : PendingRows) (user_id : String) : Option Draft :=
  (List.find? (fun r => r.1 == user_id) rows).map (fun r => r.2)

/-- memory_manager.set_pending_confirmation: INSERT OR REPLACE on the
user_id primary key, which deletes any conflicting row and appends the new
row. -/
def set_pending_confirmation (rows : PendingRows) (user_id : String) (confirmation_data : Draft) :
    PendingRows :=
  List.filter (fun r => !(r.1 == user_id)) rows ++ [(user_id, confirmation_data)]

/-- memory_manager.clear_pending_confirmation: DELETE WHERE user_id = ?. -/
def clear_pending_confirmation (rows : PendingRows) (user_id : String) : PendingRows :=
  List.filter (fun r => !(r.1 == user_id)) rows

/-- Number of pending-confirmation rows stored for a user. -/
def countPendingFor (rows : PendingRows) (user_id : String) : Nat :=
  (List.filter (fun r => r.1 == user_id) rows).length

/-! ### Confirmation engine (main_poke_agent.py, execution_agent.py) -/

/-- Python str.title applied after replacing underscores by spaces: first
letter of each space-separated word upper-cased, the rest lower-cased
(ASCII approximation, only reached on unknown task types). -/
def pyTitle (s : String) : String :=
  String.intercalate " " (List.map (fun w => String.capitalize (String.toLower w)) (s.splitOn " "))

/-- main_poke_agent._format_completion_message. -/
def format_completion_message (execution_result : ExecOut) : String :=
  let task_type := execution_result.task_type.getD "task"
  let details := execution_result.details.getD ""
  if task_type == "email_sent" then
    "✅ Email sent successfully! " ++ details
  else if task_type == "calendar_created" then
    "✅ Calendar event created! " ++ details
  else
    "✅ " ++ pyTitle (task_type.replace "_" " ") ++ " completed! " ++ details

/-- execution_agent.execute_confirmed_action: dispatch on the stored
confirmation type, issue the matching backend create call, translate the
receipt; second component is the backend-call log of this invocation. -/
def execute_confirmed_action (backend : Backend) (confirmation_data : Draft) (user_id : String) :
    ExecOut × List BackendCall :=
  let action_type := confirmation_data.type.getD ""
  if action_type == "email" then
    let «to» := confirmation_data.«to».getD ""
    let subject := confirmation_data.subject.getD ""
    let body := confirmation_data.body.getD ""
    let result := backend.send_email «to» subject body user_id
    ({ success := some result.success, task_type := some "email_sent",
       details := some ("Email sent to " ++ «to»), message_id := result.message_id },
     [BackendCall.sendEmail «to» subject body user_id])
  else if action_type == "calendar" then
    let title := confirmation_data.title.getD ""
    let date := confirmation_data.date.getD ""
    let time := confirmation_data.time.getD ""
    let description := confirmation_data.description.getD ""
    let result := backend.create_event title date time description user_id
    ({ success := some result.success, task_type := some "calendar_created",
       details := some ("Event \x27" ++ title ++ "\x27 created"), event_id := result.event_id },
     [BackendCall.createEvent title date time description user_id])
  else
    ({ success := some false, error := some ("Unknown action type: " ++ action_type),
       task_type := some "unknown" }, [])

/-- The fixed approve-glyph set of main_poke_agent.handle_emoji_reaction. -/
def positive_emojis : List String := ["👍", "❤️", "😊", "🎉", "✅", "👌"]

/-- The fixed reject-glyph set (the source lists 👎 twice). -/
def negative_emojis : List String := ["👎", "😡", "❌", "🤮", "👎"]

/-- main_poke_agent.handle_emoji_reaction: resolve the pending confirmation
with a reaction glyph.  Returns (user-visible response, updated
pending-confirmation rows, backend-call log). -/
def handle_emoji_reaction (backend : Backend) (rows : PendingRows) (user_id reaction : String) :
    String × PendingRows × List BackendCall :=
  match get_pending_confirmation rows user_id with
  | none => ("I don\x27t have anything pending for confirmation.", rows, [])
  | some pending_confirmation =>
    let is_positive := List.contains positive_emojis reaction
    let is_negative := List.contains negative_emojis reaction
    if is_positive then
      let r := execute_confirmed_action backend pending_confirmation user_id
      (format_completion_message r.1, clear_pending_confirmation rows user_id, r.2)
    else if is_negative then
      ("Got it, I won\x27t proceed with that.", clear_pending_confirmation rows user_id, [])
    else
      ("I\x27m not sure what that reaction means. Please use 👍 for yes or 👎 for no.", rows, [])

/-- A backend whose create calls always succeed (used to instantiate
backend-parametric theorems at a concrete input). -/
def stub_backend : Backend where
  send_email := fun _ _ _ _ => { success := true, message_id := some "msg_1" }
  create_event := fun _ _ _ _ _ => { success := true, event_id := some "event_1" }
  search_emails := fun _ _ => []
  search_events := fun _ _ => []

/-- A backend whose create calls always report failure (witness for the
behaviour on a failed execution). -/
def failing_backend : Backend where
  send_email := fun _ _ _ _ => { success := false, error := some "SMTP failure" }
  create_event := fun _ _ _ _ _ => { success := false, error := some "API failure" }
  search_emails := fun _ _ => []
  search_events := fun _ _ => []

/-! ### Fan-out search (execution_agent._handle_search_task)

The four backend searches are gathered with return_exceptions=True, so each
slot is either a result list or a raised exception; we take the gathered
vector as the interface-boundary input.  A slot holding an exception, or an
empty (falsy) list, contributes nothing; every other slot has its items
tagged with the backend name and appended in declaration order. -/

/-- execution_agent._handle_search_task after the gather: combine the four
slots in the fixed order email, calendar, notion, linear. -/
def handle_search_task (email_result calendar_result notion_result linear_result :
    Except String (List SearchItem)) : ExecOut :=
  let results := [email_result, calendar_result, notion_result, linear_result]
  let sources := ["email", "calendar", "notion", "linear"]
  let combined_results := List.foldl
    (fun acc p =>
      match p.1 with
      | Except.ok items =>
        if items.isEmpty then acc
        else acc ++ List.map (fun item => { item with source := some p.2 }) items
      | Except.error _ => acc)
    [] (results.zip sources)
  { success := some true, task_type := some "search", results := some combined_results }

/-- The per-backend contribution the claim describes: a failing backend
contributes nothing, a succeeding one contributes all of its items tagged
with its source name, in order. -/
def tag_items (result : Except String (List SearchItem)) (source : String) : List SearchItem :=
  match result with
  | Except.ok items => List.map (fun item => { item with source := some source }) items
  | Except.error _ => []

/-! ### Authentication gate and the email/calendar handlers
(execution_agent.py) -/

/-- Python substring membership `needle in hay`. -/
def containsSub (needle : List Char) : List Char → Bool
  | [] => needle.isEmpty
  | c :: rest => List.isPrefixOf needle (c :: rest) || containsSub needle rest

/-- Python `needle in hay` on strings. -/
def strContains (hay needle : String) : Bool :=
  containsSub needle.toList hay.toList

/-- Python str.lower, modelled over the character list (the service names
involved are ASCII). -/
def pyLower (s : String) : String :=
  String.mk (List.map Char.toLower s.data)

/-- execution_agent._check_gmail_authentication: the source always returns
False (credentials are never assumed present). -/
def check_gmail_authentication (_user_id : String) : Bool :=
  false

/-- execution_agent._check_calendar_authentication: likewise always False. -/
def check_calendar_authentication (_user_id : String) : Bool :=
  false

/-- The Gmail OAuth URL minted by _handle_authentication_task; the uuid4 hex
token is an input since its generation is external randomness. -/
def gmail_auth_url (auth_token user_id : String) : String :=
  "https://web-production-d8e63.up.railway.app/auth-web?token=" ++ auth_token ++
    "&user_id=" ++ user_id

/-- The Google Calendar OAuth URL minted by _handle_authentication_task. -/
def calendar_auth_url (auth_token user_id : String) : String :=
  "https://web-production-d8e63.up.railway.app/auth-web?token=" ++ auth_token ++
    "&user_id=" ++ user_id ++ "&service=calendar"

/-- execution_agent._handle_authentication_task with the freshly generated
uuid4 token passed in as `auth_token`. -/
def handle_authentication_task (auth_token : String) (task_analysis : TaskAnalysis)
    (user_id : String) : ExecOut :=
  let parameters := task_analysis.parameters.getD {}
  let service := pyLower (parameters.service.getD "")
  if strContains service "gmail" || strContains service "email" ||
      strContains service "google" then
    let auth_url := gmail_auth_url auth_token user_id
    { success := some true, task_type := some "authentication", service := some "gmail",
      auth_url := some auth_url,
      message := some ("To access your Gmail, please click this authentication link: " ++
        auth_url),
      needs_user_action := some true }
  else if strContains service "calendar" then
    let auth_url := calendar_auth_url auth_token user_id
    { success := some true, task_type := some "authentication", service := some "calendar",
      auth_url := some auth_url,
      message := some ("To access your Google Calendar, please click this authentication link: " ++
        auth_url),
      needs_user_action := some true }
  else
    { success := some false,
      error := some ("Authentication not supported for service: " ++ service),
      task_type := some "authentication" }

/-- execution_agent._handle_email_task; the Gmail credential check runs
before any branch on the action, so its failure short-circuits every email
action.  Second component is the backend-call log. -/
def handle_email_task (auth_token : String) (backend : Backend)
    (task_analysis : TaskAnalysis) (user_id : String) : ExecOut × List BackendCall :=
  let action := task_analysis.action.getD ""
  let parameters := task_analysis.parameters.getD {}
  let has_gmail_auth := check_gmail_authentication user_id
  if !has_gmail_auth then
    (handle_authentication_task auth_token
      { task_type := some "authentication", action := some "authenticate",
        parameters := some { service := some "gmail" } } user_id, [])
  else if action == "send" then
    ({ needs_confirmation := some true,
       draft := some { type := some "email", «to» := some (parameters.recipient.getD ""),
                       subject := some (parameters.subject.getD ""),
                       body := some (parameters.body.getD ""), user_id := some user_id },
       task_type := some "email_compose" }, [])
  else if action == "search" then
    let query := parameters.query.getD ""
    let results := backend.search_emails user_id query
    ({ success := some true, task_type := some "email_search", results := some results },
     [BackendCall.searchEmails user_id query])
  else if action == "compose" then
    ({ needs_confirmation := some true,
       draft := some { type := some "email", «to» := some (parameters.recipient.getD ""),
                       subject := some (parameters.subject.getD ""),
                       body := some (parameters.body.getD ""), user_id := some user_id },
       task_type := some "email_compose" }, [])
  else
    ({ success := some false, error := some ("Unknown email action: " ++ action),
       task_type := some "email" }, [])

/-- execution_agent._handle_calendar_task; the Calendar credential check runs
before any branch on the action. -/
def handle_calendar_task (auth_token : String) (backend : Backend)
    (task_analysis : TaskAnalysis) (user_id : String) : ExecOut × List BackendCall :=
  let action := task_analysis.action.getD ""
  let parameters := task_analysis.parameters.getD {}
  let has_calendar_auth := check_calendar_authentication user_id
  if !has_calendar_auth then
    (handle_authentication_task auth_token
      { task_type := some "authentication", action := some "authenticate",
        parameters := some { service := some "calendar" } } user_id, [])
  else if action == "create" then
    ({ needs_confirmation := some true,
       draft := some { type := some "calendar", title := some (parameters.title.getD "New Event"),
                       date := some (parameters.date.getD ""),
                       time := some (parameters.time.getD ""),
                       description := some (parameters.description.getD ""),
                       user_id := some user_id },
       task_type := some "calendar_create" }, [])
  else if action == "search" then
    let query := parameters.query.getD ""
    let results := backend.search_events user_id query
    ({ success := some true, task_type := some "calendar_search", results := some results },
     [BackendCall.searchEvents user_id query])
  else
    ({ success := some false, error := some ("Unknown calendar action: " ++ action),
       task_type := some "calendar" }, [])

/-! ### Recurring-event expansion (calendar_service.create_recurring_event)

Datetimes are modelled at day resolution, because every supported frequency
is a whole number of days (timedelta(days=1), timedelta(weeks=1),
timedelta(days=30)) and the time of day never changes.  The outcome of each
create_event call is an oracle `ok` indexed by the loop counter i. -/

/-- The frequency in days for a recurrence pattern, None when unsupported. -/
def recurrence_frequency (recurrence : String) : Option Nat :=
  if recurrence == "daily" then some 1
  else if recurrence == "weekly" then some 7
  else if recurrence == "monthly" then some 30
  else none

/-- The loop of create_recurring_event: n create_event calls starting at
loop index i and day current_date, advancing current_date by freq after
each call whether or not it succeeded.  Each entry records (day, outcome). -/
def create_occurrences (ok : Nat → Bool) (freq : Nat) : Nat → Nat → Nat → List (Nat × Bool)
  | _, _, 0 => []
  | i, current_date, Nat.succ n =>
    (current_date, ok i) :: create_occurrences ok freq (i + 1) (current_date + freq) n

/-- calendar_service.create_recurring_event: expand a supported pattern into
10 occurrences, count the successful creations; second component is the
per-occurrence call log. -/
def create_recurring_event (ok : Nat → Bool) (recurrence : String) (start_day : Nat) :
    ExecOut × List (Nat × Bool) :=
  match recurrence_frequency recurrence with
  | none => ({ success := some false, error := some "Unsupported recurrence pattern" }, [])
  | some freq =>
    let occurrences := create_occurrences ok freq 0 start_day 10
    let events_created := (List.filter (fun o => o.2) occurrences).length
    ({ success := some true, events_created := some events_created,
       details := some ("Created " ++ toString events_created ++ " recurring events") },
     occurrences)

/-! ### Trigger store (trigger_manager.py) -/

/-- trigger_manager.delete_trigger over the in-memory dict of triggers keyed
by trigger id: returns the result dict and the updated store. -/
def delete_trigger (triggers : String → Option Trigger) (trigger_id user_id : String) :
    ExecOut × (String → Option Trigger) :=
  match triggers trigger_id with
  | some trigger =>
    if trigger.user_id == user_id then
      ({ success := some true, details := some ("Trigger " ++ trigger_id ++ " deleted") },
       fun t => if t == trigger_id then none else triggers t)
    else
      ({ success := some false, error := some "Trigger not found or access denied" }, triggers)
  | none =>
    ({ success := some false, error := some "Trigger not found" }, triggers)

/-! ### Conversation-controller formatting (main_poke_agent.py) -/

/-- main_poke_agent._format_draft_confirmation: only email and calendar
drafts match a branch; any other draft type falls off the end of the
function, i.e. returns None. -/
def format_draft_confirmation (execution_result : ExecOut) : Option String :=
  let draft := execution_result.draft.getD {}
  let draft_type := draft.type.getD "email"
  if draft_type == "email" then
    some ("📧 **Email Draft**\n\n**To:** " ++ draft.«to».getD "" ++ "\n**Subject:** " ++
      draft.subject.getD "" ++ "\n\n**Message:**\n" ++ draft.body.getD "" ++
      "\n\nDoes this look good to send? 👍 or 👎")
  else if draft_type == "calendar" then
    some ("📅 **Calendar Event Draft**\n\n**Title:** " ++ draft.title.getD "" ++
      "\n**Date:** " ++ draft.date.getD "" ++ "\n**Time:** " ++ draft.time.getD "" ++
      "\n**Description:** " ++ draft.description.getD "" ++
      "\n\nDoes this look good to create? 👍 or 👎")
  else
    none

/-- The numbered result lines of _format_information_response. -/
def numberLines : Nat → List SearchItem → List String
  | _, [] => []
  | i, r :: rs =>
    (toString i ++ ". " ++ r.summary.getD "No summary available") :: numberLines (i + 1) rs

/-- main_poke_agent._format_information_response. -/
def format_information_response (execution_result : ExecOut) : String :=
  let results := execution_result.results.getD []
  if results.isEmpty then
    "I couldn\x27t find anything matching your request."
  else
    "Here\x27s what I found:\n\n" ++ String.intercalate "\n" (numberLines 1 (results.take 5))

/-- main_poke_agent._process_execution_result: the value returned to
process_user_message, which hands it to the user verbatim on the delegation
path.  None when the draft formatter matches no branch. -/
def process_execution_result (execution_result : ExecOut) : Option String :=
  if execution_result.needs_confirmation.getD false then
    format_draft_confirmation execution_result
  else if execution_result.task_completed.getD false then
    some (format_completion_message execution_result)
  else
    some (format_information_response execution_result)

end Poke

/-! ### Store lemmas -/

namespace Poke

theorem find?_filter_not_key (rows : PendingRows) (user_id : String) :
    List.find? (fun r => r.1 == user_id) (List.filter (fun r => !(r.1 == user_id)) rows) = none := by
  rw [List.find?_eq_none]
  intro x hx
  have hmem := (List.mem_filter.mp hx).2
  simp only [Bool.not_eq_eq_eq_not, Bool.not_true] at hmem
  simp [hmem]

theorem get_pending_set (rows : PendingRows) (user_id : String) (d : Draft) :
    get_pending_confirmation (set_pending_confirmation rows user_id d) user_id = some d := by
  unfold get_pending_confirmation set_pending_confirmation
  rw [List.find?_append, find?_filter_not_key rows user_id]
  simp [List.find?]

theorem filter_key_filter_not (rows : PendingRows) (user_id : String) :
    List.filter (fun r => r.1 == user_id) (List.filter (fun r => !(r.1 == user_id)) rows) = [] := by
  induction rows with
  | nil => rfl
  | cons r rs ih =>
    by_cases h : r.1 = user_id
    · have hb : (r.1 == user_id) = true := beq_iff_eq.mpr h
      simp [List.filter_cons, hb, ih]
    · have hb : (r.1 == user_id) = false := beq_false_of_ne h
      simp [List.filter_cons, hb, ih]

theorem count_pending_set (rows : PendingRows) (user_id : String) (d : Draft) :
    countPendingFor (set_pending_confirmation rows user_id d) user_id = 1 := by
  unfold countPendingFor set_pending_confirmation
  rw [List.filter_append, filter_key_filter_not]
  simp [List.filter]

theorem get_pending_clear (rows : PendingRows) (user_id : String) :
    get_pending_confirmation (clear_pending_confirmation rows user_id) user_id = none := by
  unfold get_pending_confirmation clear_pending_confirmation
  rw [find?_filter_not_key]
  rfl

/-- C1: staging drafts without an intervening resolve is last-write-wins: after
any sequence of set_pending_confirmation calls for one user ending in draft
`d`, at most one pending row exists for that user and
get_pending_confirmation returns exactly `d`; the older drafts are replaced,
never kept alongside. -/
theorem single_pending_last_write_wins (rows : PendingRows) (user_id : String)
    (ds : List Draft) (d : Draft) :
    get_pending_confirmation
        (List.foldl (fun s x => set_pending_confirmation s user_id x) rows (ds ++ [d]))
        user_id = some d ∧
    countPendingFor
        (List.foldl (fun s x => set_pending_confirmation s user_id x) rows (ds ++ [d]))
        user_id ≤ 1 := by
  rw [List.foldl_append]
  simp only [List.foldl_cons, List.foldl_nil]
  exact ⟨get_pending_set _ _ _, le_of_eq (count_pending_set _ _ _)⟩

/-- Witness: two stagings for alice, the second draft wins and one row remains. -/
theorem single_pending_last_write_wins_witness :
    get_pending_confirmation
        (List.foldl (fun s x => set_pending_confirmation s "alice" x) []
          ([{ type := some "email", subject := some "first" }] ++
            [{ type := some "email", subject := some "second" }]))
        "alice" = some { type := some "email", subject := some "second" } ∧
    countPendingFor
        (List.foldl (fun s x => set_pending_confirmation s "alice" x) []
          ([{ type := some "email", subject := some "first" }] ++
            [{ type := some "email", subject := some "second" }]))
        "alice" ≤ 1 :=
  single_pending_last_write_wins [] "alice" [{ type := some "email", subject := some "first" }]
    { type := some "email", subject := some "second" }

/-! ### Reaction-resolution lemmas -/

theorem neg_not_pos {r : String} (h : List.contains negative_emojis r = true) :
    List.contains positive_emojis r = false := by
  have hmem : r ∈ negative_emojis := by
    simpa [List.contains] using h
  fin_cases hmem <;> decide

theorem handle_approve_eq (backend : Backend) (rows : PendingRows) (user_id reaction : String)
    (d : Draft) (hget : get_pending_confirmation rows user_id = some d)
    (hpos : List.contains positive_emojis reaction = true) :
    handle_emoji_reaction backend rows user_id reaction =
      (format_completion_message (execute_confirmed_action backend d user_id).1,
       clear_pending_confirmation rows user_id,
       (execute_confirmed_action backend d user_id).2) := by
  have hp : reaction ∈ positive_emojis := by simpa using hpos
  unfold handle_emoji_reaction
  rw [hget]
  simp [hp]

theorem handle_reject_eq (backend : Backend) (rows : PendingRows) (user_id reaction : String)
    (d : Draft) (hget : get_pending_confirmation rows user_id = some d)
    (hneg : List.contains negative_emojis reaction = true) :
    handle_emoji_reaction backend rows user_id reaction =
      ("Got it, I won\x27t proceed with that.", clear_pending_confirmation rows user_id, []) := by
  have hn : reaction ∈ negative_emojis := by simpa using hneg
  have hp : reaction ∉ positive_emojis := by simpa using neg_not_pos hneg
  unfold handle_emoji_reaction
  rw [hget]
  simp [hp, hn]

theorem handle_none_eq (backend : Backend) (rows : PendingRows) (user_id reaction : String)
    (h : get_pending_confirmation rows user_id = none) :
    handle_emoji_reaction backend rows user_id reaction =
      ("I don\x27t have anything pending for confirmation.", rows, []) := by
  unfold handle_emoji_reaction
  rw [h]

theorem execute_email_eq (backend : Backend) (d : Draft) (user_id : String)
    (h : d.type = some "email") :
    execute_confirmed_action backend d user_id =
      ({ success := some (backend.send_email (d.«to».getD "") (d.subject.getD "")
            (d.body.getD "") user_id).success,
         task_type := some "email_sent",
         details := some ("Email sent to " ++ d.«to».getD ""),
         message_id := (backend.send_email (d.«to».getD "") (d.subject.getD "")
            (d.body.getD "") user_id).message_id },
       [BackendCall.sendEmail (d.«to».getD "") (d.subject.getD "") (d.body.getD "") user_id]) := by
  unfold execute_confirmed_action
  rw [h]
  rfl

theorem execute_calendar_eq (backend : Backend) (d : Draft) (user_id : String)
    (h : d.type = some "calendar") :
    execute_confirmed_action backend d user_id =
      ({ success := some (backend.create_event (d.title.getD "") (d.date.getD "")
            (d.time.getD "") (d.description.getD "") user_id).success,
         task_type := some "calendar_created",
         details := some ("Event \x27" ++ d.title.getD "" ++ "\x27 created"),
         event_id := (backend.create_event (d.title.getD "") (d.date.getD "")
            (d.time.getD "") (d.description.getD "") user_id).event_id },
       [BackendCall.createEvent (d.title.getD "") (d.date.getD "") (d.time.getD "")
          (d.description.getD "") user_id]) := by
  unfold execute_confirmed_action
  rw [h]
  rfl

/-- C2: with a pending email or calendar draft stored, one approve-glyph
resolve issues exactly one backend create call — send_email for an email
draft, create_event for a calendar draft — and a second approve-glyph
resolve on the cleared state issues no backend call and returns the neutral
nothing-pending response. -/
theorem approve_resolve_exactly_once
    (backend : Backend) (rows : PendingRows) (user_id reaction : String) (d : Draft)
    (hget : get_pending_confirmation rows user_id = some d)
    (hpos : List.contains positive_emojis reaction = true)
    (htype : d.type = some "email" ∨ d.type = some "calendar") :
    (handle_emoji_reaction backend rows user_id reaction).2.2.length = 1 ∧
    (d.type = some "email" →
      (handle_emoji_reaction backend rows user_id reaction).2.2 =
        [BackendCall.sendEmail (d.«to».getD "") (d.subject.getD "") (d.body.getD "") user_id]) ∧
    (d.type = some "calendar" →
      (handle_emoji_reaction backend rows user_id reaction).2.2 =
        [BackendCall.createEvent (d.title.getD "") (d.date.getD "") (d.time.getD "")
          (d.description.getD "") user_id]) ∧
    (handle_emoji_reaction backend
        (handle_emoji_reaction backend rows user_id reaction).2.1 user_id reaction).2.2 = [] ∧
    (handle_emoji_reaction backend
        (handle_emoji_reaction backend rows user_id reaction).2.1 user_id reaction).1 =
      "I don\x27t have anything pending for confirmation." := by
  have h1 := handle_approve_eq backend rows user_id reaction d hget hpos
  have h2 : (handle_emoji_reaction backend rows user_id reaction).2.1 =
      clear_pending_confirmation rows user_id := by
    rw [h1]
  have hsecond := handle_none_eq backend (clear_pending_confirmation rows user_id) user_id reaction
    (get_pending_clear rows user_id)
  refine ⟨?_, ?_, ?_, ?_, ?_⟩
  · rcases htype with h | h
    · rw [h1, execute_email_eq backend d user_id h]
      rfl
    · rw [h1, execute_calendar_eq backend d user_id h]
      rfl
  · intro h
    rw [h1, execute_email_eq backend d user_id h]
  · intro h
    rw [h1, execute_calendar_eq backend d user_id h]
  · rw [h2, hsecond]
  · rw [h2, hsecond]

/-- Witness for C2 at a concrete pending email draft for user alice. -/
theorem approve_resolve_exactly_once_witness :
    (handle_emoji_reaction stub_backend
        [("alice", { type := some "email", «to» := some "john@example.com",
                     subject := some "Hi", body := some "hello" })] "alice" "👍").2.2.length = 1 ∧
    (handle_emoji_reaction stub_backend
        (handle_emoji_reaction stub_backend
          [("alice", { type := some "email", «to» := some "john@example.com",
                       subject := some "Hi", body := some "hello" })] "alice" "👍").2.1
        "alice" "👍").1 = "I don\x27t have anything pending for confirmation." := by
  have h := approve_resolve_exactly_once stub_backend
    [("alice", { type := some "email", «to» := some "john@example.com",
                 subject := some "Hi", body := some "hello" })] "alice" "👍"
    { type := some "email", «to» := some "john@example.com",
      subject := some "Hi", body := some "hello" }
    (by decide) (by decide) (Or.inl rfl)
  exact ⟨h.1, h.2.2.2.2⟩

/-- C3 counterexample: with user alice holding a pending email draft and a
backend whose send reports failure, the approve resolve clears the pending
confirmation anyway, refuting that a draft whose execution reports failure
is not cleared. -/
theorem approve_failure_still_clears_counterexample :
    (execute_confirmed_action failing_backend
        { type := some "email", «to» := some "john@example.com", subject := some "Hi",
          body := some "hello" } "alice").1.success = some false ∧
    get_pending_confirmation
      (handle_emoji_reaction failing_backend
          [("alice", { type := some "email", «to» := some "john@example.com",
                       subject := some "Hi", body := some "hello" })] "alice" "👍").2.1
      "alice" = none := by
  refine ⟨rfl, ?_⟩
  decide

/-- C3 (amended): on an approve-glyph resolve the backend create call for the
stored draft is performed and its receipt determines the reported outcome,
and the PendingConfirmation is cleared after the execution unconditionally —
also when the execution reports failure. -/
theorem approve_execution_then_unconditional_clear
    (backend : Backend) (rows : PendingRows) (user_id reaction : String) (d : Draft)
    (hget : get_pending_confirmation rows user_id = some d)
    (hpos : List.contains positive_emojis reaction = true)
    (htype : d.type = some "email" ∨ d.type = some "calendar") :
    (handle_emoji_reaction backend rows user_id reaction).2.2.length = 1 ∧
    get_pending_confirmation (handle_emoji_reaction backend rows user_id reaction).2.1
      user_id = none ∧
    (handle_emoji_reaction backend rows user_id reaction).1 =
      format_completion_message (execute_confirmed_action backend d user_id).1 ∧
    (d.type = some "email" →
      (execute_confirmed_action backend d user_id).1.success =
        some (backend.send_email (d.«to».getD "") (d.subject.getD "")
          (d.body.getD "") user_id).success) ∧
    (d.type = some "calendar" →
      (execute_confirmed_action backend d user_id).1.success =
        some (backend.create_event (d.title.getD "") (d.date.getD "") (d.time.getD "")
          (d.description.getD "") user_id).success) := by
  have h1 := handle_approve_eq backend rows user_id reaction d hget hpos
  have h2 : (handle_emoji_reaction backend rows user_id reaction).2.1 =
      clear_pending_confirmation rows user_id := by
    rw [h1]
  refine ⟨?_, ?_, ?_, ?_, ?_⟩
  · rcases htype with h | h
    · rw [h1, execute_email_eq backend d user_id h]
      rfl
    · rw [h1, execute_calendar_eq backend d user_id h]
      rfl
  · rw [h2]
    exact get_pending_clear rows user_id
  · rw [h1]
  · intro h
    rw [execute_email_eq backend d user_id h]
  · intro h
    rw [execute_calendar_eq backend d user_id h]

/-- Witness for the amended C3: a failing backend still leads to one call and
a cleared pending confirmation. -/
theorem approve_execution_then_unconditional_clear_witness :
    (handle_emoji_reaction failing_backend
        [("alice", { type := some "email", «to» := some "john@example.com",
                     subject := some "Hi", body := some "hello" })] "alice" "👍").2.2.length = 1 ∧
    get_pending_confirmation
      (handle_emoji_reaction failing_backend
          [("alice", { type := some "email", «to» := some "john@example.com",
                       subject := some "Hi", body := some "hello" })] "alice" "👍").2.1
      "alice" = none := by
  have h := approve_execution_then_unconditional_clear failing_backend
    [("alice", { type := some "email", «to» := some "john@example.com",
                 subject := some "Hi", body := some "hello" })] "alice" "👍"
    { type := some "email", «to» := some "john@example.com",
      subject := some "Hi", body := some "hello" }
    (by decide) (by decide) (Or.inl rfl)
  exact ⟨h.1, h.2.1⟩

/-- C4: a reject-glyph resolve on a pending confirmation issues no backend
call at all, returns the cancellation acknowledgement, and clears the
pending confirmation immediately. -/
theorem reject_resolve_side_effect_free
    (backend : Backend) (rows : PendingRows) (user_id reaction : String) (d : Draft)
    (hget : get_pending_confirmation rows user_id = some d)
    (hneg : List.contains negative_emojis reaction = true) :
    (handle_emoji_reaction backend rows user_id reaction).2.2 = [] ∧
    (handle_emoji_reaction backend rows user_id reaction).1 =
      "Got it, I won\x27t proceed with that." ∧
    get_pending_confirmation (handle_emoji_reaction backend rows user_id reaction).2.1
      user_id = none := by
  have h1 := handle_reject_eq backend rows user_id reaction d hget hneg
  rw [h1]
  exact ⟨rfl, rfl, get_pending_clear rows user_id⟩

/-- Witness for C4 at a concrete pending calendar draft. -/
theorem reject_resolve_side_effect_free_witness :
    (handle_emoji_reaction stub_backend
        [("bob", { type := some "calendar", title := some "Standup" })] "bob" "👎").2.2 = [] ∧
    (handle_emoji_reaction stub_backend
        [("bob", { type := some "calendar", title := some "Standup" })] "bob" "👎").1 =
      "Got it, I won\x27t proceed with that." := by
  have h := reject_resolve_side_effect_free stub_backend
    [("bob", { type := some "calendar", title := some "Standup" })] "bob" "👎"
    { type := some "calendar", title := some "Standup" } (by decide) (by decide)
  exact ⟨h.1, h.2.1⟩

/-- C5: a reaction in neither glyph set leaves the pending-confirmation store
untouched, issues no backend call, and returns the clarification message. -/
theorem unrecognized_reaction_frame
    (backend : Backend) (rows : PendingRows) (user_id reaction : String) (d : Draft)
    (hget : get_pending_confirmation rows user_id = some d)
    (hpos : List.contains positive_emojis reaction = false)
    (hneg : List.contains negative_emojis reaction = false) :
    handle_emoji_reaction backend rows user_id reaction =
      ("I\x27m not sure what that reaction means. Please use 👍 for yes or 👎 for no.",
       rows, []) := by
  have hp : reaction ∉ positive_emojis := by simpa using hpos
  have hn : reaction ∉ negative_emojis := by simpa using hneg
  unfold handle_emoji_reaction
  rw [hget]
  simp [hp, hn]

/-- Witness for C5 with the shrug reaction on a pending email draft. -/
theorem unrecognized_reaction_frame_witness :
    handle_emoji_reaction stub_backend
        [("alice", { type := some "email", subject := some "Hi" })] "alice" "🤷" =
      ("I\x27m not sure what that reaction means. Please use 👍 for yes or 👎 for no.",
       [("alice", { type := some "email", subject := some "Hi" })], []) :=
  unrecognized_reaction_frame stub_backend
    [("alice", { type := some "email", subject := some "Hi" })] "alice" "🤷"
    { type := some "email", subject := some "Hi" } (by decide) (by decide) (by decide)

/-! ### Fan-out search -/

theorem combine_if_empty (acc items : List SearchItem) (f : SearchItem → SearchItem) :
    (if items.isEmpty then acc else acc ++ List.map f items) = acc ++ List.map f items := by
  cases items <;> simp

theorem combine_if_nil (acc items : List SearchItem) (f : SearchItem → SearchItem) :
    (if items = [] then acc else acc ++ List.map f items) = acc ++ List.map f items := by
  cases items <;> simp

/-- C6: whatever subset of the four search backends raises, the merged result
list is the concatenation, in the fixed order email, calendar, notion,
linear, of the items of the non-failing backends, each tagged with its
source; failing backends contribute nothing, and no surviving item is
dropped, re-ranked or de-duplicated. -/
theorem search_fanout_isolation (email_result calendar_result notion_result linear_result :
    Except String (List SearchItem)) :
    (handle_search_task email_result calendar_result notion_result linear_result).results =
      some (tag_items email_result "email" ++ tag_items calendar_result "calendar" ++
        tag_items notion_result "notion" ++ tag_items linear_result "linear") := by
  cases email_result <;> cases calendar_result <;> cases notion_result <;> cases linear_result <;>
    simp [handle_search_task, tag_items, combine_if_empty, combine_if_nil]

/-! ### Authentication short-circuit -/

/-- C7: every email task and every calendar task, whatever its action and
parameters, short-circuits on the failing credential check: it returns an
authentication-task result naming the required service whose user-facing
message embeds the freshly minted token (the uuid4 hex value, passed in as
`auth_token`), and issues zero backend create or search calls. -/
theorem auth_short_circuit (auth_token : String) (backend : Backend)
    (task_analysis : TaskAnalysis) (user_id : String) :
    ((handle_email_task auth_token backend task_analysis user_id).2 = [] ∧
      (handle_email_task auth_token backend task_analysis user_id).1.task_type =
        some "authentication" ∧
      (handle_email_task auth_token backend task_analysis user_id).1.service = some "gmail" ∧
      (handle_email_task auth_token backend task_analysis user_id).1.message =
        some ("To access your Gmail, please click this authentication link: " ++
          gmail_auth_url auth_token user_id) ∧
      ∃ s t, (handle_email_task auth_token backend task_analysis user_id).1.message =
        some (s ++ auth_token ++ t)) ∧
    ((handle_calendar_task auth_token backend task_analysis user_id).2 = [] ∧
      (handle_calendar_task auth_token backend task_analysis user_id).1.task_type =
        some "authentication" ∧
      (handle_calendar_task auth_token backend task_analysis user_id).1.service =
        some "calendar" ∧
      (handle_calendar_task auth_token backend task_analysis user_id).1.message =
        some ("To access your Google Calendar, please click this authentication link: " ++
          calendar_auth_url auth_token user_id) ∧
      ∃ s t, (handle_calendar_task auth_token backend task_analysis user_id).1.message =
        some (s ++ auth_token ++ t)) := by
  have he : handle_email_task auth_token backend task_analysis user_id =
      (handle_authentication_task auth_token
        { task_type := some "authentication", action := some "authenticate",
          parameters := some { service := some "gmail" } } user_id, []) := rfl
  have hc : handle_calendar_task auth_token backend task_analysis user_id =
      (handle_authentication_task auth_token
        { task_type := some "authentication", action := some "authenticate",
          parameters := some { service := some "calendar" } } user_id, []) := rfl
  have hg1 : (strContains (pyLower "gmail") "gmail" ||
      strContains (pyLower "gmail") "email" ||
      strContains (pyLower "gmail") "google") = true := by decide
  have hc1 : (strContains (pyLower "calendar") "gmail" ||
      strContains (pyLower "calendar") "email" ||
      strContains (pyLower "calendar") "google") = false := by decide
  have hc2 : strContains (pyLower "calendar") "calendar" = true := by decide
  have hag : handle_authentication_task auth_token
      { task_type := some "authentication", action := some "authenticate",
        parameters := some { service := some "gmail" } } user_id =
      { success := some true, task_type := some "authentication", service := some "gmail",
        auth_url := some (gmail_auth_url auth_token user_id),
        message := some ("To access your Gmail, please click this authentication link: " ++
          gmail_auth_url auth_token user_id),
        needs_user_action := some true } := by
    unfold handle_authentication_task
    simp only [Option.getD_some, hg1, if_true]
  have hac : handle_authentication_task auth_token
      { task_type := some "authentication", action := some "authenticate",
        parameters := some { service := some "calendar" } } user_id =
      { success := some true, task_type := some "authentication", service := some "calendar",
        auth_url := some (calendar_auth_url auth_token user_id),
        message := some ("To access your Google Calendar, please click this authentication link: " ++
          calendar_auth_url auth_token user_id),
        needs_user_action := some true } := by
    unfold handle_authentication_task
    simp only [Option.getD_some, hc1, hc2, if_true, Bool.false_eq_true, if_false]
  refine ⟨⟨?_, ?_, ?_, ?_, ?_⟩, ⟨?_, ?_, ?_, ?_, ?_⟩⟩
  · rw [he]
  · rw [he]
    simp [hag]
  · rw [he]
    simp [hag]
  · rw [he]
    simp [hag]
  · refine ⟨"To access your Gmail, please click this authentication link: " ++
      "https://web-production-d8e63.up.railway.app/auth-web?token=",
      "&user_id=" ++ user_id, ?_⟩
    rw [he]
    simp [hag, gmail_auth_url, String.append_assoc]
    rw [← String.append_assoc]
    simp
  · rw [hc]
  · rw [hc]
    simp [hac]
  · rw [hc]
    simp [hac]
  · rw [hc]
    simp [hac]
  · refine ⟨"To access your Google Calendar, please click this authentication link: " ++
      "https://web-production-d8e63.up.railway.app/auth-web?token=",
      "&user_id=" ++ user_id ++ "&service=calendar", ?_⟩
    rw [hc]
    simp [hac, calendar_auth_url, String.append_assoc]
    rw [← String.append_assoc]
    simp

/-! ### Recurring-event expansion -/

theorem create_occurrences_eq (ok : Nat → Bool) (freq : Nat) :
    ∀ (n i current_date : Nat),
      create_occurrences ok freq i current_date n =
        List.map (fun j => (current_date + j * freq, ok (i + j))) (List.range n) := by
  intro n
  induction n with
  | zero =>
    intro i c
    simp [create_occurrences]
  | succ n ih =>
    intro i c
    rw [List.range_succ_eq_map, List.map_cons, List.map_map]
    simp only [create_occurrences]
    rw [ih (i + 1) (c + freq)]
    congr 1
    · simp
    · apply List.map_congr_left
      intro j _
      simp only [Function.comp_apply, Prod.mk.injEq]
      refine ⟨?_, congrArg ok (by omega)⟩
      rw [Nat.succ_eq_add_one]
      ring

theorem length_filter_snd_map (g : Nat → Nat) (ok : Nat → Bool) (l : List Nat) :
    (List.filter (fun o => o.2) (List.map (fun i => (g i, ok i)) l)).length =
      (List.filter ok l).length := by
  induction l with
  | nil => rfl
  | cons a l ih =>
    cases h : ok a <;> simp [List.filter_cons, h, ih]

theorem create_recurring_eq (ok : Nat → Bool) (r : String) (start_day freq : Nat)
    (hfreq : recurrence_frequency r = some freq) :
    create_recurring_event ok r start_day =
      ({ success := some true,
         events_created :=
           some ((List.filter (fun o => o.2) (create_occurrences ok freq 0 start_day 10)).length),
         details := some ("Created " ++
           toString ((List.filter (fun o => o.2)
             (create_occurrences ok freq 0 start_day 10)).length) ++ " recurring events") },
       create_occurrences ok freq 0 start_day 10) := by
  unfold create_recurring_event
  rw [hfreq]

theorem create_recurring_spec (ok : Nat → Bool) (start_day freq : Nat) (r : String)
    (hfreq : recurrence_frequency r = some freq) :
    (create_recurring_event ok r start_day).2 =
      List.map (fun i => (start_day + i * freq, ok i)) (List.range 10) ∧
    (create_recurring_event ok r start_day).1.events_created =
      some (List.filter ok (List.range 10)).length ∧
    (create_recurring_event ok r start_day).1.success = some true := by
  rw [create_recurring_eq ok r start_day freq hfreq]
  refine ⟨?_, ?_, rfl⟩
  · rw [create_occurrences_eq]
    simp
  · simp only [create_occurrences_eq ok freq 10 0 start_day, Nat.zero_add]
    rw [length_filter_snd_map (fun j => start_day + j * freq) ok (List.range 10)]

/-- C8: for each supported recurrence pattern, create_recurring_event issues
exactly 10 occurrence-creation calls whose start days advance by the fixed
interval (1 day for daily, 7 days for weekly, 30 days for monthly), keeps
going past any individual failure, and reports the count of successful
creations rather than an all-or-nothing outcome. -/
theorem recurring_event_expansion (ok : Nat → Bool) (start_day : Nat) :
    ((create_recurring_event ok "daily" start_day).2 =
        List.map (fun i => (start_day + i * 1, ok i)) (List.range 10) ∧
      (create_recurring_event ok "daily" start_day).1.events_created =
        some (List.filter ok (List.range 10)).length ∧
      (create_recurring_event ok "daily" start_day).1.success = some true) ∧
    ((create_recurring_event ok "weekly" start_day).2 =
        List.map (fun i => (start_day + i * 7, ok i)) (List.range 10) ∧
      (create_recurring_event ok "weekly" start_day).1.events_created =
        some (List.filter ok (List.range 10)).length ∧
      (create_recurring_event ok "weekly" start_day).1.success = some true) ∧
    ((create_recurring_event ok "monthly" start_day).2 =
        List.map (fun i => (start_day + i * 30, ok i)) (List.range 10) ∧
      (create_recurring_event ok "monthly" start_day).1.events_created =
        some (List.filter ok (List.range 10)).length ∧
      (create_recurring_event ok "monthly" start_day).1.success = some true) :=
  ⟨create_recurring_spec ok start_day 1 "daily" rfl,
   create_recurring_spec ok start_day 7 "weekly" rfl,
   create_recurring_spec ok start_day 30 "monthly" rfl⟩

/-! ### Trigger deletion -/

/-- C9: delete_trigger fails with a structured result and leaves the store
unchanged when the id is absent or owned by another user, and when the id
exists and is owned by the caller it removes exactly that trigger and
succeeds. -/
theorem delete_trigger_ownership (triggers : String → Option Trigger)
    (trigger_id user_id : String) :
    (triggers trigger_id = none →
      (delete_trigger triggers trigger_id user_id).1.success = some false ∧
      (delete_trigger triggers trigger_id user_id).1.error = some "Trigger not found" ∧
      (delete_trigger triggers trigger_id user_id).2 = triggers) ∧
    (∀ tr, triggers trigger_id = some tr → tr.user_id ≠ user_id →
      (delete_trigger triggers trigger_id user_id).1.success = some false ∧
      (delete_trigger triggers trigger_id user_id).1.error =
        some "Trigger not found or access denied" ∧
      (delete_trigger triggers trigger_id user_id).2 = triggers) ∧
    (∀ tr, triggers trigger_id = some tr → tr.user_id = user_id →
      (delete_trigger triggers trigger_id user_id).1.success = some true ∧
      (delete_trigger triggers trigger_id user_id).2 trigger_id = none ∧
      ∀ t, t ≠ trigger_id → (delete_trigger triggers trigger_id user_id).2 t = triggers t) := by
  refine ⟨?_, ?_, ?_⟩
  · intro h
    simp [delete_trigger, h]
  · intro tr h hne
    have hb : (tr.user_id == user_id) = false := beq_false_of_ne hne
    simp [delete_trigger, h, hb]
  · intro tr h he
    have hb : (tr.user_id == user_id) = true := beq_iff_eq.mpr he
    refine ⟨?_, ?_, ?_⟩
    · simp [delete_trigger, h, hb]
    · simp [delete_trigger, h, hb]
    · intro t ht
      simp [delete_trigger, h, hb, beq_false_of_ne ht]
      exact fun h2 => absurd h2 ht

/-- Witness for C9: deleting an owned trigger succeeds and removes it. -/
theorem delete_trigger_ownership_witness :
    (delete_trigger
        (fun t => if t == "t1" then
          some { id := "t1", user_id := "alice", trigger_type := "cron",
                 condition := "09:00", action := "Remind user: standup" } else none)
        "t1" "alice").1.success = some true ∧
    (delete_trigger
        (fun t => if t == "t1" then
          some { id := "t1", user_id := "alice", trigger_type := "cron",
                 condition := "09:00", action := "Remind user: standup" } else none)
        "t1" "alice").2 "t1" = none := by
  have h := (delete_trigger_ownership
      (fun t => if t == "t1" then
        some { id := "t1", user_id := "alice", trigger_type := "cron",
               condition := "09:00", action := "Remind user: standup" } else none)
      "t1" "alice").2.2
    { id := "t1", user_id := "alice", trigger_type := "cron",
      condition := "09:00", action := "Remind user: standup" }
    (by decide) rfl
  exact ⟨h.1, h.2.1⟩

/-! ### Draft-confirmation formatting totality -/

/-- C10: an execution result staged for confirmation whose draft type is
neither email nor calendar matches no branch of the draft formatter, so the
formatter and hence the value handed back to the user by
process_user_message is None rather than a confirmation string. -/
theorem unknown_draft_type_confirmation_none (execution_result : ExecOut) (d : Draft)
    (t : String)
    (hconf : execution_result.needs_confirmation = some true)
    (hdraft : execution_result.draft = some d)
    (htype : d.type = some t)
    (hne : t ≠ "email") (hnc : t ≠ "calendar") :
    format_draft_confirmation execution_result = none ∧
    process_execution_result execution_result = none := by
  have hfd : format_draft_confirmation execution_result = none := by
    unfold format_draft_confirmation
    rw [hdraft]
    simp [htype, hne, hnc]
  refine ⟨hfd, ?_⟩
  unfold process_execution_result
  rw [hconf]
  simp [hfd]

/-- Witness for C10 with a draft of type note. -/
theorem unknown_draft_type_confirmation_none_witness :
    format_draft_confirmation
        { needs_confirmation := some true, draft := some { type := some "note" } } = none ∧
    process_execution_result
        { needs_confirmation := some true, draft := some { type := some "note" } } = none :=
  unknown_draft_type_confirmation_none
    { needs_confirmation := some true, draft := some { type := some "note" } }
    { type := some "note" } "note" rfl rfl rfl (by decide) (by decide)

end Poke
